import Mathlib

set_option maxRecDepth 10000

/-!  Shallow embedding of the biomedical workflow agent
     (src/agents/workflow_agent.py, src/memory/memory_manager.py and the
     prompt templates under src/prompts/ and cot_prompts/).

     Python strings are modelled as Lean `String`; machine-level concerns do
     not arise.  Exceptions are modelled with `Except String`; a stage that
     catches an exception is a total function, a stage that lets one escape
     returns `Except.error`.  The two external collaborators (the Anthropic
     client behind `_get_llm_response` and the Neo4j wrapper `GraphInterface`)
     are oracles passed in as functions. -/

/-- Python whitespace characters recognized by `str.strip()` (ASCII range). -/
def isPySpace (c : Char) : Bool :=
  (" \t\n\r\x0b\x0c").data.contains c

def pyStripChars (cs : List Char) : List Char :=
  ((cs.dropWhile isPySpace).reverse.dropWhile isPySpace).reverse

/-- Python `str.strip()` with no arguments. -/
def pyStrip (s : String) : String := ⟨pyStripChars s.data⟩

/-- Python `str.lower()` (the agent only feeds it ASCII completions). -/
def pyLower (s : String) : String := ⟨s.data.map Char.toLower⟩

/-- The characters of the literal argument in `response.rstrip(".,;:!?")`. -/
def isTrailingPunct (c : Char) : Bool :=
  (".,;:!?").data.contains c

/-- Python `str.rstrip(".,;:!?")`. -/
def pyRstripPunct (s : String) : String :=
  ⟨(s.data.reverse.dropWhile isTrailingPunct).reverse⟩

/-- `listStartsWith s pat` : `pat` begins the list `s`. -/
def listStartsWith : List Char → List Char → Bool
  | _, [] => true
  | [], _ :: _ => false
  | c :: cs, d :: ds => c == d && listStartsWith cs ds

/-- `charsContains pat s` : `pat` occurs inside `s` (Python `pat in s`). -/
def charsContains (pat : List Char) : List Char → Bool
  | [] => listStartsWith [] pat
  | c :: cs => listStartsWith (c :: cs) pat || charsContains pat cs

/-- Python `pat in s` on strings. -/
def strContainsSub (s pat : String) : Bool := charsContains pat.data s.data

def pyReplaceAux (old new : List Char) : Nat → List Char → List Char
  | 0, s => s
  | _ + 1, [] => []
  | fuel + 1, c :: cs =>
    if listStartsWith (c :: cs) old && !old.isEmpty then
      new ++ pyReplaceAux old new fuel ((c :: cs).drop old.length)
    else
      c :: pyReplaceAux old new fuel cs

/-- Python `s.replace(old, new)` for a non-empty `old`: replaces all
    non-overlapping occurrences left to right. -/
def pyReplace (s old new : String) : String :=
  ⟨pyReplaceAux old.data new.data s.data.length s.data⟩

/-- Model of `re.search(r'\[.*?\]', s, re.DOTALL)`: the leftmost `'['` that has
    a `']'` somewhere after it, lazily paired with the first such `']'`
    (`.` matches newlines under DOTALL).  Returns the matched substring. -/
def bracketMatch (cs : List Char) : Option (List Char) :=
  match cs.dropWhile (fun c => c != '[') with
  | [] => none
  | _ :: rest =>
    if rest.any (fun c => c == ']') then
      some ('[' :: (rest.takeWhile (fun c => c != ']') ++ [']']))
    else none

def isJsonWs (c : Char) : Bool := (" \t\n\r").data.contains c

/-- The two-character JSON escape table, written as an association list
    (`\u` escapes are out of the modelled fragment). -/
def jsonEscPairs : List (Char × Char) :=
  [('"', '"'), ('\\', '\\'), ('/', '/'), ('n', '\n'),
   ('t', '\t'), ('r', '\r'), ('b', '\x08'), ('f', '\x0c')]

def jsonEscChar (c : Char) : Option Char :=
  Option.map Prod.snd (jsonEscPairs.find? (fun p => p.1 == c))

def hexDigitVal (c : Char) : Option Nat :=
  if c.isDigit then some (c.toNat - 48)
  else if 'a' ≤ c && c ≤ 'f' then some (c.toNat - 87)
  else if 'A' ≤ c && c ≤ 'F' then some (c.toNat - 55)
  else none

def hexQuad (a b c d : Char) : Option Nat :=
  match hexDigitVal a, hexDigitVal b, hexDigitVal c, hexDigitVal d with
  | some va, some vb, some vc, some vd => some (va * 4096 + vb * 256 + vc * 16 + vd)
  | _, _, _, _ => none

/-- Scan a JSON string body after the opening quote; returns the decoded
    content and the remainder after the closing quote.  Raw control
    characters are rejected (json.loads runs in strict mode); `\uXXXX`
    escapes are decoded, surrogate pairs combined.  The one boundary of the
    embedding: a lone surrogate escape, which Python would keep as an
    unpaired surrogate inside `str`, denotes no scalar value and has no
    `Char` counterpart, so it is rejected here. -/
def scanJsonString : List Char → Option (List Char × List Char)
  | [] => none
  | '"' :: rest => some ([], rest)
  | '\\' :: 'u' :: a :: b :: c :: d :: rest =>
    (match hexQuad a b c d with
     | none => none
     | some v =>
       if 55296 ≤ v && v ≤ 56319 then
         match rest with
         | '\\' :: 'u' :: a2 :: b2 :: c2 :: d2 :: rest2 =>
           (match hexQuad a2 b2 c2 d2 with
            | some w =>
              if 56320 ≤ w && w ≤ 57343 then
                match scanJsonString rest2 with
                | some (tail, r) =>
                  some (Char.ofNat (65536 + (v - 55296) * 1024 + (w - 56320)) :: tail, r)
                | none => none
              else none
            | none => none)
         | _ => none
       else if 56320 ≤ v && v ≤ 57343 then none
       else
         match scanJsonString rest with
         | some (tail, r) => some (Char.ofNat v :: tail, r)
         | none => none)
  | '\\' :: c :: rest =>
    match jsonEscChar c, scanJsonString rest with
    | some e, some (tail, r) => some (e :: tail, r)
    | _, _ => none
  | c :: rest =>
    if c == '\\' || c.val < 32 then none
    else
      match scanJsonString rest with
      | some (tail, r) => some (c :: tail, r)
      | none => none

/-- A decoded JSON value, as `json.loads` can return it into the untyped
    `entities` slot: strings, numbers (carried by their source lexeme, which
    the agent never renders for any input a claim evaluates), booleans, null,
    objects (insertion-ordered, duplicate keys last-value-wins as in a Python
    dict) and arrays. -/
inductive JsonV where
  | jvstr (s : String)
  | jvnum (lexeme : String)
  | jvbool (b : Bool)
  | jvnull
  | jvobj (fields : List (String × JsonV))
  | jvarr (items : List JsonV)
deriving Repr

def lbrace : Char := Char.ofNat 123

def rbrace : Char := Char.ofNat 125

/-- The fraction/exponent tail of a JSON number after its integer part. -/
def parseFracExp (lex : List Char) (cs : List Char) : Option (String × List Char) :=
  match
    (match cs with
     | '.' :: t =>
       if (t.takeWhile Char.isDigit).isEmpty then none
       else some (lex ++ '.' :: t.takeWhile Char.isDigit, t.dropWhile Char.isDigit)
     | _ => some (lex, cs)) with
  | none => none
  | some (lex2, cs2) =>
    match cs2 with
    | c :: t =>
      if c == 'e' || c == 'E' then
        match
          (match t with
           | '+' :: u => (['+'], u)
           | '-' :: u => (['-'], u)
           | _ => (([] : List Char), t)) with
        | (sgn, t2) =>
          if (t2.takeWhile Char.isDigit).isEmpty then none
          else some (⟨lex2 ++ c :: sgn ++ t2.takeWhile Char.isDigit⟩, t2.dropWhile Char.isDigit)
      else some (⟨lex2⟩, c :: t)
    | [] => some (⟨lex2⟩, [])

/-- A JSON number (`-?(0|[1-9]\d*)(\.\d+)?([eE][+-]?\d+)?`), returning its
    lexeme and the rest of the input. -/
def parseJsonNumber (cs : List Char) : Option (String × List Char) :=
  match
    (match cs with
     | '-' :: t => ((['-'] : List Char), t)
     | _ => (([] : List Char), cs)) with
  | (negChars, cs1) =>
    match cs1 with
    | [] => none
    | d :: t =>
      if d == '0' then parseFracExp (negChars ++ [d]) t
      else if d.isDigit then
        parseFracExp (negChars ++ d :: t.takeWhile Char.isDigit) (t.dropWhile Char.isDigit)
      else none

/-- Storing a member into a decoded object: a duplicate key keeps its first
    position but takes the later value, as in a Python dict. -/
def objUpsert (fields : List (String × JsonV)) (k : String) (v : JsonV) :
    List (String × JsonV) :=
  if fields.any (fun p => p.1 == k) then
    fields.map (fun p => if p.1 == k then (p.1, v) else p)
  else fields ++ [(k, v)]

mutual

/-- One JSON value (fuel bounds the recursion; callers pass more fuel than
    the input length, and every recursive call has consumed input first). -/
def parseJsonValue : Nat → List Char → Option (JsonV × List Char)
  | 0, _ => none
  | fuel + 1, cs0 =>
    match cs0.dropWhile isJsonWs with
    | [] => none
    | c :: rest =>
      if c == '"' then
        match scanJsonString rest with
        | some (content, r) => some (JsonV.jvstr ⟨content⟩, r)
        | none => none
      else if c == '[' then
        match rest.dropWhile isJsonWs with
        | ']' :: r => some (JsonV.jvarr [], r)
        | _ =>
          match parseJsonItemsNE fuel rest with
          | some (vs, r) => some (JsonV.jvarr vs, r)
          | none => none
      else if c == lbrace then
        match rest.dropWhile isJsonWs with
        | c2 :: r2 =>
          if c2 == rbrace then some (JsonV.jvobj [], r2)
          else
            match parseJsonMembersNE fuel [] rest with
            | some (fs, r) => some (JsonV.jvobj fs, r)
            | none => none
        | [] => none
      else if listStartsWith (c :: rest) (("true").data) then
        some (JsonV.jvbool true, (c :: rest).drop 4)
      else if listStartsWith (c :: rest) (("false").data) then
        some (JsonV.jvbool false, (c :: rest).drop 5)
      else if listStartsWith (c :: rest) (("null").data) then
        some (JsonV.jvnull, (c :: rest).drop 4)
      else if listStartsWith (c :: rest) (("NaN").data) then
        some (JsonV.jvnum ("nan"), (c :: rest).drop 3)
      else if listStartsWith (c :: rest) (("Infinity").data) then
        some (JsonV.jvnum ("inf"), (c :: rest).drop 8)
      else if listStartsWith (c :: rest) (("-Infinity").data) then
        some (JsonV.jvnum ("-inf"), (c :: rest).drop 9)
      else
        match parseJsonNumber (c :: rest) with
        | some (lex, r) => some (JsonV.jvnum lex, r)
        | none => none

/-- The items of a non-empty array, after `[` or a separating comma (a
    trailing comma is refused, as in json.loads). -/
def parseJsonItemsNE : Nat → List Char → Option (List JsonV × List Char)
  | 0, _ => none
  | fuel + 1, cs =>
    match parseJsonValue fuel cs with
    | none => none
    | some (v, rest) =>
      match rest.dropWhile isJsonWs with
      | ']' :: r => some ([v], r)
      | ',' :: r =>
        match parseJsonItemsNE fuel r with
        | some (vs, r2) => some (v :: vs, r2)
        | none => none
      | _ => none

/-- The members of a non-empty object, accumulating with `objUpsert`. -/
def parseJsonMembersNE : Nat → List (String × JsonV) → List Char →
    Option (List (String × JsonV) × List Char)
  | 0, _, _ => none
  | fuel + 1, acc, cs =>
    match cs.dropWhile isJsonWs with
    | '"' :: body =>
      match scanJsonString body with
      | none => none
      | some (key, rest) =>
        match rest.dropWhile isJsonWs with
        | ':' :: r =>
          match parseJsonValue fuel r with
          | none => none
          | some (v, r2) =>
            match r2.dropWhile isJsonWs with
            | c :: r3 =>
              if c == rbrace then some (objUpsert acc (⟨key⟩ : String) v, r3)
              else if c == ',' then parseJsonMembersNE fuel (objUpsert acc (⟨key⟩ : String) v) r3
              else none
            | [] => none
        | _ => none
    | _ => none

end

/-- Model of `json.loads` on a whole text: one value, then only whitespace. -/
def jsonLoads (cs : List Char) : Option JsonV :=
  match parseJsonValue (cs.length + 1) cs with
  | some (v, rest) => if (rest.dropWhile isJsonWs).isEmpty then some v else none
  | none => none

/-- `json.loads` on the regex-matched substring.  That substring always
    starts with `[`, so a successful decode is always an array, whose items
    the stage stores in `entities` whatever their types; `none` stands for a
    raised `JSONDecodeError`. -/
def jsonLoadsArr (cs : List Char) : Option (List JsonV) :=
  match jsonLoads cs with
  | some (JsonV.jvarr l) => some l
  | _ => none

/-- An apostrophe, kept as a named constant for building Python-repr text. -/
def squote : String := String.singleton (Char.ofNat 39)

/-- A sampled property value.  Python stores arbitrary scalars; the agent
    only ever renders them with `str(...)` / `repr(...)`, so we carry the
    rendered text together with a tag recording whether the scalar was a
    `str` (the `isinstance(values[0], str)` test in `generate_query`). -/
inductive PVal where
  | pstr (v : String)
  | pnum (v : String)
deriving Repr, DecidableEq

/-- Python `str(v)` of a sampled value. -/
def pyStr : PVal → String
  | PVal.pstr v => v
  | PVal.pnum v => v

/-- Python `repr(v)` of a sampled value (strings quote with `'`; the sampled
    values contain no quotes or escapes themselves). -/
def pyReprPVal : PVal → String
  | PVal.pstr v => squote ++ v ++ squote
  | PVal.pnum v => v

def joinSep (sep : String) : List String → String
  | [] => ""
  | [x] => x
  | x :: y :: rest => x ++ sep ++ joinSep sep (y :: rest)

/-- Python repr of a list of sampled values, as interpolated by an f-string. -/
def pyReprListPVal (vs : List PVal) : String :=
  "[" ++ joinSep (", ") (vs.map pyReprPVal) ++ "]"

/-- Python repr of a list of strings. -/
def pyReprStrList (vs : List String) : String :=
  "[" ++ joinSep (", ") (vs.map (fun v => squote ++ v ++ squote)) ++ "]"

/-- Python repr of a `Dict[str, List[str]]` in insertion order. -/
def pyReprDict (d : List (String × List String)) : String :=
  "\x7b" ++
    joinSep (", ")
      (d.map (fun p => squote ++ p.1 ++ squote ++ ": " ++ pyReprStrList p.2)) ++
    "\x7d"

/-- One result row: an ordered mapping from column name to a scalar or null,
    as returned by `GraphInterface.execute_query`. -/
inductive JVal where
  | jstr (v : String)
  | jnum (v : String)
  | jnull
deriving Repr, DecidableEq

abbrev Row := List (String × JVal)

def jvalDump : JVal → String
  | JVal.jstr v => "\"" ++ v ++ "\""
  | JVal.jnum v => v
  | JVal.jnull => "null"

/-- One row as laid out by `json.dumps(..., indent=2)` at nesting depth 1. -/
def jsonDumpsRowBlock (r : Row) : String :=
  match r with
  | [] => "  \x7b\x7d"
  | _ =>
    "  \x7b\n" ++
      joinSep (",\n")
        (r.map (fun p => "    \"" ++ p.1 ++ "\": " ++ jvalDump p.2)) ++
      "\n  \x7d"

/-- `json.dumps(rows, indent=2)` for a list of result rows. -/
def jsonDumpsRows (rows : List Row) : String :=
  match rows with
  | [] => "[]"
  | _ => "[\n" ++ joinSep (",\n") (rows.map jsonDumpsRowBlock) ++ "\n]"

/-- The schema snapshot returned by `GraphInterface.get_schema_info()`.
    Python dicts are modelled as insertion-ordered association lists. -/
structure SchemaInfo where
  node_labels : List String
  relationship_types : List String
  node_properties : List (String × List String)
  relationship_properties : List (String × List String)
deriving Repr, DecidableEq

abbrev PropValues := List (String × List PVal)

/-- The per-instance configuration of `WorkflowAgent`: the cached schema and
    property-value samples, and the two enhancement flags. -/
structure AgentConfig where
  schema : SchemaInfo
  property_values : PropValues
  conversation_memory : Bool
  chain_of_thought : Bool
deriving Repr, DecidableEq

/-- `MemoryManager.history`: the ordered list of
    `(user_question, agent_answer)` turns. -/
abbrev History := List (String × String)

def formatHistoryLines : Nat → History → List String
  | _, [] => []
  | i, (q, ans) :: rest =>
    ("User " ++ toString (i + 1) ++ ": " ++ q) ::
      ("Agent " ++ toString (i + 1) ++ ": " ++ ans) :: formatHistoryLines (i + 1) rest

/-- `MemoryManager.format_history_for_prompt`. -/
def format_history_for_prompt (h : History) : String :=
  joinSep ("\n") (formatHistoryLines 0 h)

/-- The `conversation_history` block computed at the top of
    `_build_classification_prompt` and `extract_entities`: present only when
    memory is enabled and non-empty (`memory_manager` exists exactly when the
    flag was set at construction). -/
def conversationHistoryBlock (a : AgentConfig) (h : History) : String :=
  if a.conversation_memory && !h.isEmpty then
    "Previous conversation:\n" ++ format_history_for_prompt h ++ "\n\n"
  else ""

/-- `WorkflowState`, the TypedDict threaded through the five stages.  The
    `entities: Optional[List[str]]` annotation is unenforced at runtime: the
    extract stage stores whatever list `json.loads` decoded, so the field
    holds arbitrary decoded JSON values. -/
structure WorkflowState where
  user_question : String
  question_type : Option String
  entities : Option (List JsonV)
  cypher_query : Option String
  results : Option (List Row)
  final_answer : Option String
  error : Option String
deriving Repr

/-- The two external collaborators: the LLM client (`prompt`, `max_tokens` →
    completion text or a raised error message) and
    `GraphInterface.execute_query`. -/
structure Oracles where
  llm : String → Nat → Except String String
  graphExec : String → Except String (List Row)

/-- `WorkflowAgent._get_llm_response`: strips the completion, and wraps any
    raised failure in `RuntimeError(f"LLM response failed: {e}")`. -/
def get_llm_response (o : Oracles) (prompt : String) (maxTokens : Nat) : Except String String :=
  match o.llm prompt maxTokens with
  | Except.ok t => Except.ok (pyStrip t)
  | Except.error e => Except.error ("LLM response failed: " ++ e)

/-- Is the string empty (Python falsy)? -/
def strEmpty (s : String) : Bool := s.data.isEmpty

/-- Python truthiness of an optional string (`if state.get(...)`). -/
def pyTruthyStr : Option String → Bool
  | none => false
  | some s => !strEmpty s

/-! ### Prompt construction (PromptAssembler) -/

/-- The elaborated chain-of-reasoning classification template
    (`CLASSIFICATION_PROMPT` in cot_prompts/classification_prompt.py,
    re-exported through src/prompts), rendered with `.format(question=...,
    conversation_history=...)`. -/
def CLASSIFICATION_PROMPT (ch q : String) : String :=
  "Classify this biomedical question into one category.\n\n" ++ ch ++
    "\n\nCategories:\n- gene_disease: Questions about genes and diseases\n- drug_treatment: Questions about drugs treating diseases\n- protein_function: Questions about protein functions\n- general_db: Questions about database structure\n- general_knowledge: General biomedical facts\n\nQuestion: " ++
    q ++
    "\n\nThink about the main focus of the question, then respond with ONLY the category name."

/-- The compact classification f-string in `_build_classification_prompt`
    (the source line for drug_treatment carries two trailing spaces). -/
def compactClassificationPrompt (ch q : String) : String :=
  ch ++
    "Classify this biomedical question. Choose one:\n- gene_disease: genes and diseases\n- drug_treatment: drugs and treatments  \n- protein_function: proteins and functions\n- general_db: database exploration\n- general_knowledge: biomedical concepts\n\nQuestion: " ++
    q ++ "\n\nRespond with just the type."

/-- `WorkflowAgent._build_classification_prompt`. -/
def build_classification_prompt (a : AgentConfig) (h : History) (q : String) : String :=
  let ch := conversationHistoryBlock a h
  if a.chain_of_thought then CLASSIFICATION_PROMPT ch q
  else compactClassificationPrompt ch q

/-- The `property_info` lines shared by the two extraction prompts: one line
    per property that has a non-empty sample list, showing the first three
    values rendered with `str(...)`. -/
def propertyInfoLines (pv : PropValues) : List String :=
  pv.filterMap (fun p =>
    if p.2.isEmpty then none
    else some ("- " ++ p.1 ++ ": " ++ joinSep (", ") ((p.2.take 3).map pyStr)))

/-- The elaborated extraction template (`ENTITY_EXTRACTION_PROMPT` in
    src/prompts/entity_extraction_prompt.py) rendered with `.format(...)`.
    Note: this branch substitutes `'\n'.join(property_info)` directly, with
    no "No property values available" fallback. -/
def ENTITY_EXTRACTION_PROMPT (ch q ets propInfo : String) : String :=
  "Extract specific biomedical entities from this question.\n\n" ++ ch ++
    "\n\nONLY extract:\n- Specific disease names (e.g., \"Hypertension\", \"Breast Cancer\")\n- Specific drug names (e.g., \"Lisinopril\")\n- Specific gene names (e.g., \"TP53\")\n- Property values (e.g., \"approved\", \"common\", \"severe\", \"small molecule\")\n\nDO NOT extract:\n- Generic types (\"drugs\", \"genes\", \"diseases\")\n- Actions (\"treat\", \"associated with\")\n- Question words (\"what\", \"which\")\n\nDatabase context:\nNodes: " ++
    ets ++ "\n" ++ propInfo ++ "\n\nQuestion: " ++ q ++
    "\n\nReturn ONLY a JSON list like: [\"entity1\", \"entity2\"] or []"

/-- The compact extraction f-string in `extract_entities`. -/
def compactExtractionPrompt (ch ets propInfoBlock q : String) : String :=
  ch ++ "Extract specific biomedical entities from this question.\n\nAvailable entity types: " ++
    ets ++ "\nAvailable property values:\n" ++ propInfoBlock ++ "\n\nQuestion: " ++ q ++
    "\n\nExtract specific names and property values. Return JSON list: [\"term1\", \"term2\"] or []"

/-- The prompt built inside `extract_entities` (both rendering modes). -/
def build_extraction_prompt (a : AgentConfig) (h : History) (st : WorkflowState) : String :=
  let lines := propertyInfoLines a.property_values
  let ets := joinSep (", ") a.schema.node_labels
  let ch := conversationHistoryBlock a h
  if a.chain_of_thought then
    ENTITY_EXTRACTION_PROMPT ch st.user_question ets (joinSep ("\n") lines)
  else
    compactExtractionPrompt ch ets
      (if lines.isEmpty then "- No property values available" else joinSep ("\n") lines)
      st.user_question

/-- The `relationship_guide` f-string in `generate_query`. -/
def relationshipGuide (s : SchemaInfo) : String :=
  "\nAvailable relationships:\n" ++
    joinSep (" | ") (s.relationship_types.map (fun r => "- " ++ r))

/-- The `property_details` lines in `generate_query`: each property with a
    non-empty sample list, its full value list in Python repr, tagged by the
    `isinstance(values[0], str)` test. -/
def propertyDetailLines (pv : PropValues) : List String :=
  pv.filterMap (fun p =>
    match p.2 with
    | [] => none
    | v :: _ =>
      some ("- " ++ p.1 ++ ": " ++ pyReprListPVal p.2 ++ " (" ++
        (match v with
         | PVal.pstr _ => "text values"
         | PVal.pnum _ => "numeric values") ++ ")"))

/-- The `property_info` f-string in `generate_query`. -/
def generatePropertyInfo (a : AgentConfig) : String :=
  "Property names and values:\nNode properties: " ++ pyReprDict a.schema.node_properties ++
    "\nAvailable property values:\n" ++
    (let ls := propertyDetailLines a.property_values
     if ls.isEmpty then "- No values available" else joinSep ("\n") ls) ++
    "\nUse WHERE property IN [value1, value2] for filtering."

/-- Python f-string interpolation of an `Optional[str]` whose key is always
    present in the state dict (`None` renders as "None"). -/
def optStrPy : Option String → String
  | some s => s
  | none => "None"

mutual

/-- Python repr of a decoded JSON value (strings quote with `'` and the
    sampled completions contain no quotes or escapes; numbers render by
    their carried lexeme; booleans and null render as the Python constants). -/
def pyReprJsonV : JsonV → String
  | JsonV.jvstr v => squote ++ v ++ squote
  | JsonV.jvnum lex => lex
  | JsonV.jvbool true => "True"
  | JsonV.jvbool false => "False"
  | JsonV.jvnull => "None"
  | JsonV.jvobj fields => "\x7b" ++ pyReprJsonFields fields ++ "\x7d"
  | JsonV.jvarr items => "[" ++ pyReprJsonItems items ++ "]"

def pyReprJsonFields : List (String × JsonV) → String
  | [] => ""
  | [(k, v)] => squote ++ k ++ squote ++ ": " ++ pyReprJsonV v
  | (k, v) :: q :: rest =>
    squote ++ k ++ squote ++ ": " ++ pyReprJsonV v ++ ", " ++ pyReprJsonFields (q :: rest)

def pyReprJsonItems : List JsonV → String
  | [] => ""
  | [v] => pyReprJsonV v
  | v :: w :: rest => pyReprJsonV v ++ ", " ++ pyReprJsonItems (w :: rest)

end

/-- Python f-string interpolation of `state.get('entities', [])`: the key is
    always present, so a null field renders as "None" and a list as its repr. -/
def optEntitiesPy : Option (List JsonV) → String
  | some l => "[" ++ pyReprJsonItems l ++ "]"
  | none => "None"

/-- The query-generation prompt built inline in `generate_query`.  This is
    the only form the stage ever builds: it does not consult
    `chain_of_thought` (and `QUERY_GENERATION_PROMPT` is never imported by
    workflow_agent.py). -/
def build_generation_prompt (a : AgentConfig) (st : WorkflowState) : String :=
  "Create a Cypher query for this biomedical question:\n\nQuestion: " ++ st.user_question ++
    "\nType: " ++ optStrPy st.question_type ++
    "\nSchema:\nNodes: " ++ joinSep (", ") a.schema.node_labels ++
    "\nRelations: " ++ joinSep (", ") a.schema.relationship_types ++
    "\n" ++ generatePropertyInfo a ++
    "\n" ++ relationshipGuide a.schema ++
    "\nEntities: " ++ optEntitiesPy st.entities ++
    "\n\nUse MATCH, WHERE with CONTAINS for filtering, RETURN, LIMIT 10.\nIMPORTANT: Use property names from schema above and IN filtering for property values.\nReturn only the Cypher query."

/-- The unused elaborated query-generation template
    (`QUERY_GENERATION_PROMPT` in src/prompts/query_generation_prompt.py),
    rendered with `.format(...)`.  Defined here to compare against the prompt
    `generate_query` actually builds. -/
def QUERY_GENERATION_PROMPT (ch q qt ents nls rts propInfo relGuide : String) : String :=
  "You are an expert in Cypher query language and biomedical knowledge graphs.\n\n" ++ ch ++
    "\n\nYour task: Generate an accurate Cypher query based on the user" ++ squote ++
    "s question.\n\nQuestion: " ++ q ++ "\nType: " ++ qt ++ "\nExtracted Entities: " ++ ents ++
    "\n\nDatabase Schema:\nNodes: " ++ nls ++ "\nRelationships: " ++ rts ++
    "\n" ++ propInfo ++ "\n" ++ relGuide ++
    "\n\nHere" ++ squote ++
    "s your thought process:\n1. Understand what the user is asking for\n2. Identify which nodes and relationships are needed\n3. Determine how to filter using the extracted entities\n4. Construct the MATCH pattern\n5. Add WHERE clauses for filtering\n6. Define what to RETURN\n7. Add LIMIT 10\n\nGuidelines:\n- Use exact label names from the schema\n- For filtering, use: WHERE property IN [value1, value2] or WHERE property = " ++
    squote ++ "value" ++ squote ++
    "\n- Do NOT use elementId() or other internal functions\n- Always add LIMIT 10\n\nExample:\nQuestion: \"Which drugs treat Hypertension?\"\nThought: Need Drug nodes that TREAT Disease nodes. Filter Disease by name = \"Hypertension\".\nQuery: MATCH (dr:Drug)-[:TREATS]->(d:Disease \x7bdisease_name: " ++
    squote ++ "Hypertension" ++ squote ++
    "\x7d) RETURN dr.drug_name LIMIT 10\n\nNow generate the query. Think step-by-step, then provide ONLY the Cypher query on the last line starting with \"Query:\"\n"

/-- The format-stage prompt for `general_knowledge` questions. -/
def knowledgePrompt (q : String) : String :=
  "Answer this general biomedical question using your knowledge:\n\nQuestion: " ++ q ++
    "\n\nProvide a clear, informative answer about biomedical concepts."

/-- The format-stage summarization prompt over the first five result rows. -/
def resultsPrompt (q : String) (rows : List Row) : String :=
  "Convert these database results into a clear answer:\n\nQuestion: " ++ q ++
    "\nResults: " ++ jsonDumpsRows (rows.take 5) ++
    "\nTotal found: " ++ toString rows.length ++
    "\n\nMake it concise and informative."

/-- The fixed apology template in `format_answer`. -/
def apologyMessage (e : String) : String :=
  "Sorry, I had trouble with that question: " ++ e

/-- The fixed no-information message in `format_answer`. -/
def noInfoMessage : String :=
  "I didn" ++ squote ++
    "t find any information for that question. Try asking about genes, diseases, or drugs in our database."

/-! ### The five stages -/

deriving instance DecidableEq for Except

/-- The result of running one stage: the next state (or a propagated
    exception), plus the `(prompt, max_tokens)` LLM calls and the graph
    queries issued while the stage ran. -/
structure StepRes where
  out : Except String WorkflowState
  llmCalls : List (String × Nat)
  graphCalls : List String

def normalizeClassification (r : String) : String :=
  pyRstripPunct (pyLower (pyStrip r))

def validTypes : List String :=
  ["gene_disease", "drug_treatment", "protein_function", "general_db", "general_knowledge"]

/-- The acceptance rule of `classify_question` applied to a completion:
    normalize, exact match, else first category name occurring as a
    substring, else the `general_knowledge` default. -/
def classifyResult (r : String) : String :=
  if validTypes.contains (normalizeClassification r) then normalizeClassification r
  else
    match validTypes.find? (fun v => strContainsSub (normalizeClassification r) v) with
    | some v => v
    | none => "general_knowledge"

/-- `WorkflowAgent.classify_question`: catches every exception, recording
    `error` and defaulting the category. -/
def classify_question (a : AgentConfig) (h : History) (o : Oracles) (st : WorkflowState) : StepRes :=
  match get_llm_response o (build_classification_prompt a h st.user_question) 50 with
  | Except.ok response =>
    ⟨Except.ok { st with question_type := some (classifyResult response) },
      [(build_classification_prompt a h st.user_question, 50)], []⟩
  | Except.error e =>
    ⟨Except.ok { st with error := some ("Classification failed: " ++ e),
                         question_type := some ("general_knowledge") },
      [(build_classification_prompt a h st.user_question, 50)], []⟩

/-- Cleaning applied to the raw extraction completion before the regex:
    `strip`, drop the code-fence markers, `strip` again. -/
def extractCleaned (r : String) : String :=
  pyStrip (pyReplace (pyReplace (pyStrip r) ("```json") ("")) ("```") (""))

/-- The full parsing path of `extract_entities` from a raw completion to the
    entity list: clean, find the first lazily-matched `[...]`, JSON-decode;
    a successful decode stores the decoded items whatever they are, and any
    missing match or decode failure yields `[]` (the stage catches
    `JSONDecodeError`/`AttributeError`). -/
def extractParse (r : String) : List JsonV :=
  match bracketMatch (extractCleaned r).data with
  | some js =>
    match jsonLoadsArr js with
    | some l => l
    | none => []
  | none => []

/-- `WorkflowAgent.extract_entities`.  The `try` block catches only
    `json.JSONDecodeError` and `AttributeError`; the `RuntimeError` raised by
    `_get_llm_response` on a gateway failure is not caught and propagates. -/
def extract_entities (a : AgentConfig) (h : History) (o : Oracles) (st : WorkflowState) : StepRes :=
  if st.question_type == some ("general_db") || st.question_type == some ("general_knowledge") then
    ⟨Except.ok { st with entities := some [] }, [], []⟩
  else
    match get_llm_response o (build_extraction_prompt a h st) 100 with
    | Except.ok response =>
      ⟨Except.ok { st with entities := some (extractParse response) },
        [(build_extraction_prompt a h st, 100)], []⟩
    | Except.error e => ⟨Except.error e, [(build_extraction_prompt a h st, 100)], []⟩

/-- `WorkflowAgent.SCHEMA_QUERY`. -/
def SCHEMA_QUERY : String :=
  "MATCH (n) RETURN labels(n) as node_type, count(n) as count ORDER BY count DESC LIMIT 10"

/-- The fence post-processing in `generate_query`: when the completion starts
    with a fence marker, drop every line starting with a fence marker or with
    "cypher", and strip the remainder. -/
def splitNl : List Char → List (List Char)
  | [] => [[]]
  | '\n' :: rest => [] :: splitNl rest
  | c :: rest =>
    match splitNl rest with
    | l :: ls => (c :: l) :: ls
    | [] => [[c]]

def stripCodeFences (q : String) : String :=
  if listStartsWith q.data (("```").data) then
    pyStrip (joinSep ("\n")
      (((splitNl q.data).filter (fun l =>
          !(listStartsWith l (("```").data) || listStartsWith l (("cypher").data)))).map
        (fun l => (⟨l⟩ : String))))
  else q

/-- `WorkflowAgent.generate_query`.  No `try` at all: a gateway failure in
    the model-generated branch propagates. -/
def generate_query (a : AgentConfig) (_h : History) (o : Oracles) (st : WorkflowState) : StepRes :=
  if st.question_type == some ("general_db") then
    ⟨Except.ok { st with cypher_query := some SCHEMA_QUERY }, [], []⟩
  else if st.question_type == some ("general_knowledge") then
    ⟨Except.ok { st with cypher_query := none }, [], []⟩
  else
    match get_llm_response o (build_generation_prompt a st) 150 with
    | Except.ok cq =>
      ⟨Except.ok { st with cypher_query := some (stripCodeFences cq) },
        [(build_generation_prompt a st, 150)], []⟩
    | Except.error e => ⟨Except.error e, [(build_generation_prompt a st, 150)], []⟩

/-- `WorkflowAgent.execute_query`: `execute_query(query) if query else []`
    under a catch-all `except`.  Note the Python truthiness test: a null or
    empty query short-circuits to `results = []` with no graph call. -/
def execute_query (_a : AgentConfig) (_h : History) (o : Oracles) (st : WorkflowState) : StepRes :=
  match st.cypher_query with
  | some q =>
    if strEmpty q then ⟨Except.ok { st with results := some [] }, [], []⟩
    else
      match o.graphExec q with
      | Except.ok rows => ⟨Except.ok { st with results := some rows }, [], [q]⟩
      | Except.error m =>
        ⟨Except.ok { st with error := some ("Query failed: " ++ m), results := some [] }, [], [q]⟩
  | none => ⟨Except.ok { st with results := some [] }, [], []⟩

/-- The non-error part of `format_answer` (reached when `state.get("error")`
    is falsy). -/
def formatNoError (o : Oracles) (st : WorkflowState) : StepRes :=
  if st.question_type == some ("general_knowledge") then
    match get_llm_response o (knowledgePrompt st.user_question) 300 with
    | Except.ok ans =>
      ⟨Except.ok { st with final_answer := some ans }, [(knowledgePrompt st.user_question, 300)], []⟩
    | Except.error e => ⟨Except.error e, [(knowledgePrompt st.user_question, 300)], []⟩
  else
    if (st.results.getD []).isEmpty then
      ⟨Except.ok { st with final_answer := some noInfoMessage }, [], []⟩
    else
      match get_llm_response o (resultsPrompt st.user_question (st.results.getD [])) 250 with
      | Except.ok ans =>
        ⟨Except.ok { st with final_answer := some ans },
          [(resultsPrompt st.user_question (st.results.getD []), 250)], []⟩
      | Except.error e =>
        ⟨Except.error e, [(resultsPrompt st.user_question (st.results.getD []), 250)], []⟩

/-- `WorkflowAgent.format_answer`.  The error branch needs no model call; the
    two model-calling branches have no local `try`, so a gateway failure
    propagates. -/
def format_answer (_a : AgentConfig) (_h : History) (o : Oracles) (st : WorkflowState) : StepRes :=
  match st.error with
  | some e =>
    if strEmpty e then formatNoError o st
    else ⟨Except.ok { st with final_answer := some (apologyMessage e) }, [], []⟩
  | none => formatNoError o st

/-! ### Pipeline sequencing and entry point -/

/-- The initial `WorkflowState` built at the top of `answer_question`. -/
def initState (q : String) : WorkflowState :=
  ⟨q, none, none, none, none, none, none⟩

/-- Sequential composition of stages along the fixed LangGraph edges:
    a propagated exception short-circuits, call logs accumulate. -/
def stepBind (r : StepRes) (f : WorkflowState → StepRes) : StepRes :=
  match r.out with
  | Except.error _ => r
  | Except.ok s =>
    ⟨(f s).out, r.llmCalls ++ (f s).llmCalls, r.graphCalls ++ (f s).graphCalls⟩

/-- `self.workflow.invoke(initial_state)`: classify → extract → generate →
    execute → format. -/
def runPipeline (a : AgentConfig) (h : History) (o : Oracles) (q : String) : StepRes :=
  stepBind (classify_question a h o (initState q)) (fun s1 =>
    stepBind (extract_entities a h o s1) (fun s2 =>
      stepBind (generate_query a h o s2) (fun s3 =>
        stepBind (execute_query a h o s3) (fun s4 =>
          format_answer a h o s4))))

/-- The dictionary returned by `answer_question`. -/
structure AnswerResult where
  answer : String
  question_type : Option String
  entities : List JsonV
  cypher_query : Option String
  results_count : Nat
  raw_results : List Row
  error : Option String
deriving Repr

/-- `WorkflowAgent.answer_question`: run the pipeline, read the final state,
    append the returned answer to memory when enabled.  The state keys are
    always present and `format_answer` assigns `final_answer` on every path,
    so the Python `dict.get` defaults are modelled with `Option.getD`. -/
def answer_question (a : AgentConfig) (h : History) (o : Oracles) (q : String) :
    Except String (AnswerResult × History) :=
  match (runPipeline a h o q).out with
  | Except.error e => Except.error e
  | Except.ok s =>
    Except.ok
      (⟨s.final_answer.getD ("No answer generated"), s.question_type, s.entities.getD [],
        s.cypher_query, (s.results.getD []).length, (s.results.getD []).take 3, s.error⟩,
       if a.conversation_memory then
         h ++ [(q, s.final_answer.getD ("No answer generated"))]
       else h)

/-- N sequential calls to the entry point on one agent instance, threading
    the conversation memory; a propagated stage failure aborts the session. -/
def runSession (a : AgentConfig) (o : Oracles) :
    History → List String → Except String (List AnswerResult × History)
  | h, [] => Except.ok ([], h)
  | h, q :: qs =>
    match answer_question a h o q with
    | Except.error e => Except.error e
    | Except.ok (r, h2) =>
      match runSession a o h2 qs with
      | Except.error e => Except.error e
      | Except.ok (rs, hN) => Except.ok (r :: rs, hN)

/-! ### SchemaCache property-value probing -/

/-- Does the accumulated dict already hold this property name
    (`prop_name not in values`)? -/
def containsKey (m : PropValues) (k : String) : Bool :=
  m.any (fun p => p.1 == k)

/-- `self.schema.get("node_properties", {}).get(label, [])`. -/
def lookupListD (m : List (String × List String)) (k : String) : List String :=
  match m.find? (fun p => p.1 == k) with
  | some p => p.2
  | none => []

/-- The node-property loop body of `_get_key_property_values` for one label.
    The probe call sits directly under the outer `try`, so a failure aborts
    the whole construction: the Bool records that abort.  An empty sample
    list is falsy and adds nothing. -/
def probeNodeProps (probe : String → String → Except String (List PVal)) (label : String) :
    List String → PropValues → PropValues × Bool
  | [], acc => (acc, false)
  | pr :: rest, acc =>
    if containsKey acc pr then probeNodeProps probe label rest acc
    else
      match probe label pr with
      | Except.error _ => (acc, true)
      | Except.ok vs =>
        probeNodeProps probe label rest (if vs.isEmpty then acc else acc ++ [(pr, vs)])

/-- The outer node-label loop; stops at the first aborting label. -/
def probeNodes (probe : String → String → Except String (List PVal)) (s : SchemaInfo) :
    List String → PropValues → PropValues × Bool
  | [], acc => (acc, false)
  | l :: ls, acc =>
    match probeNodeProps probe l (lookupListD s.node_properties l) acc with
    | (acc2, true) => (acc2, true)
    | (acc2, false) => probeNodes probe s ls acc2

/-- The relationship-property loop for one relationship: each probe sits in
    its own inner `try`, so a failure just skips that property. -/
def probeRelProps (probe : String → String → Except String (List PVal)) (relLabel : String) :
    List String → PropValues → PropValues
  | [], acc => acc
  | pr :: rest, acc =>
    if containsKey acc pr then probeRelProps probe relLabel rest acc
    else
      match probe relLabel pr with
      | Except.error _ => probeRelProps probe relLabel rest acc
      | Except.ok vs =>
        probeRelProps probe relLabel rest (if vs.isEmpty then acc else acc ++ [(pr, vs)])

def probeRels (probe : String → String → Except String (List PVal)) (s : SchemaInfo) :
    List String → PropValues → PropValues
  | [], acc => acc
  | t :: ts, acc =>
    probeRels probe s ts
      (probeRelProps probe ("REL_" ++ t) (lookupListD s.relationship_properties t) acc)

/-- `WorkflowAgent._get_key_property_values`: node loop under the outer
    `try/except: pass` only, relationship loop with per-property `try`.  A
    node-probe failure jumps to the outer handler, returning whatever was
    accumulated so far and skipping the whole relationship phase. -/
def get_key_property_values (probe : String → String → Except String (List PVal))
    (s : SchemaInfo) : PropValues :=
  match probeNodes probe s s.node_labels [] with
  | (acc, true) => acc
  | (acc, false) => probeRels probe s s.relationship_types acc

/-- The construction the spec describes: identical traversal, but every
    single probe failure — node or relationship — is swallowed individually,
    leaving only that property absent.  Used to compare the code against the
    claimed behaviour. -/
def specNodeProps (probe : String → String → Except String (List PVal)) (label : String) :
    List String → PropValues → PropValues
  | [], acc => acc
  | pr :: rest, acc =>
    if containsKey acc pr then specNodeProps probe label rest acc
    else
      match probe label pr with
      | Except.error _ => specNodeProps probe label rest acc
      | Except.ok vs =>
        specNodeProps probe label rest (if vs.isEmpty then acc else acc ++ [(pr, vs)])

def specNodes (probe : String → String → Except String (List PVal)) (s : SchemaInfo) :
    List String → PropValues → PropValues
  | [], acc => acc
  | l :: ls, acc =>
    specNodes probe s ls (specNodeProps probe l (lookupListD s.node_properties l) acc)

/-- Per-probe-swallowing snapshot construction, as the spec sentence states
    it: every declared property of every label and relationship is probed,
    and a failed probe leaves only that property absent. -/
def spec_key_property_values (probe : String → String → Except String (List PVal))
    (s : SchemaInfo) : PropValues :=
  probeRels probe s s.relationship_types (specNodes probe s s.node_labels [])

/-- Is every node-property probe (as visited by the loop) successful? -/
def isOkB : Except String (List PVal) → Bool
  | Except.ok _ => true
  | Except.error _ => false

/-! ### Field monotonicity -/

/-- One pipeline step never unsets an already-populated state field, and
    never rewrites the question; `error` in particular stays populated. -/
def monotoneStep (s t : WorkflowState) : Prop :=
  s.user_question = t.user_question ∧
  (s.question_type.isSome = true → t.question_type.isSome = true) ∧
  (s.entities.isSome = true → t.entities.isSome = true) ∧
  (s.cypher_query.isSome = true → t.cypher_query.isSome = true) ∧
  (s.results.isSome = true → t.results.isSome = true) ∧
  (s.final_answer.isSome = true → t.final_answer.isSome = true) ∧
  (s.error.isSome = true → t.error.isSome = true)

/-! ### Concrete fixtures used by witnesses and counterexamples -/

def schema0 : SchemaInfo :=
  ⟨["Gene", "Disease"], ["ASSOCIATED_WITH"], [("Gene", ["gene_name"])], []⟩

/-- A plain agent: no memory, compact prompts. -/
def agent0 : AgentConfig := ⟨schema0, [], false, false⟩

/-- Same agent with conversation memory enabled. -/
def agentMem : AgentConfig := ⟨schema0, [], true, false⟩

/-- Same agent with chain-of-thought prompts enabled. -/
def agentCot : AgentConfig := ⟨schema0, [], false, true⟩

/-- An LLM/graph pair that always raises. -/
def oracleFail : Oracles :=
  ⟨fun _ _ => Except.error ("boom"), fun _ => Except.error ("gboom")⟩

/-- An LLM that always answers `s`; a graph that returns no rows. -/
def oracleConst (s : String) : Oracles :=
  ⟨fun _ _ => Except.ok s, fun _ => Except.ok []⟩

/-- An LLM that always answers `s`; a graph that always raises `m`. -/
def oracleGraphFail (s m : String) : Oracles :=
  ⟨fun _ _ => Except.ok s, fun _ => Except.error m⟩

def stGD : WorkflowState :=
  { initState ("Which genes cause Hypertension?") with question_type := some ("gene_disease") }

/-! ### Helper lemmas -/

theorem classifyResult_mem (r : String) : classifyResult r ∈ validTypes := by
  unfold classifyResult
  split
  · exact List.mem_of_elem_eq_true ‹_›
  · split
    · exact List.mem_of_find?_eq_some ‹_›
    · decide

/-- C3: After classify, `question_type` is non-null and one of the five
    categories; the completion is normalized (trim, lowercase, strip trailing
    punctuation), exact match wins, else the first category in enumeration
    order occurring as a substring, else `general_knowledge`; and the
    completion "Gene_Disease." yields `gene_disease`. -/
theorem c3_classification_rule :
    (∀ r, classifyResult r ∈ validTypes) ∧
    (∀ r, validTypes.contains (normalizeClassification r) = true →
      classifyResult r = normalizeClassification r) ∧
    (∀ r v, validTypes.contains (normalizeClassification r) = false →
      validTypes.find? (fun v0 => strContainsSub (normalizeClassification r) v0) = some v →
      classifyResult r = v) ∧
    (∀ r, validTypes.contains (normalizeClassification r) = false →
      validTypes.find? (fun v0 => strContainsSub (normalizeClassification r) v0) = none →
      classifyResult r = "general_knowledge") ∧
    (∀ a h o st s, (classify_question a h o st).out = Except.ok s →
      ∃ t, s.question_type = some t ∧ t ∈ validTypes) ∧
    classifyResult ("Gene_Disease.") = "gene_disease" := by
  refine ⟨classifyResult_mem, ?_, ?_, ?_, ?_, by decide⟩
  · intro r hc
    unfold classifyResult
    rw [if_pos hc]
  · intro r v hc hf
    unfold classifyResult
    rw [if_neg (by simpa using hc), hf]
  · intro r hc hf
    unfold classifyResult
    rw [if_neg (by simpa using hc), hf]
  · intro a h o st s hs
    unfold classify_question at hs
    unfold get_llm_response at hs
    cases hllm : o.llm (build_classification_prompt a h st.user_question) 50 with
    | ok t =>
      rw [hllm] at hs
      simp at hs
      exact ⟨classifyResult (pyStrip t), by rw [← hs], classifyResult_mem _⟩
    | error e =>
      rw [hllm] at hs
      simp at hs
      exact ⟨"general_knowledge", by rw [← hs], by decide⟩

/-- Witness for C3 at concrete completions. -/
theorem c3_classification_rule_witness :
    classifyResult ("gene_disease") = normalizeClassification ("gene_disease") ∧
    classifyResult ("I pick DRUG_TREATMENT!") = "drug_treatment" ∧
    classifyResult ("nothing relevant") = "general_knowledge" ∧
    (∃ t, ({ initState ("q") with
              error := some ("Classification failed: LLM response failed: boom"),
              question_type := some ("general_knowledge") } : WorkflowState).question_type
            = some t ∧ t ∈ validTypes) :=
  ⟨c3_classification_rule.2.1 ("gene_disease") (by decide),
   c3_classification_rule.2.2.1 ("I pick DRUG_TREATMENT!") ("drug_treatment")
     (by decide) (by decide),
   c3_classification_rule.2.2.2.1 ("nothing relevant") (by decide) (by decide),
   c3_classification_rule.2.2.2.2.1 agent0 [] oracleFail (initState ("q")) _ rfl⟩

/-- C4: extraction parsing of a raw completion: strip code fences, take the
    first lazily-matched `[`…`]` substring (newlines allowed), JSON-decode
    it; both example completions parse as specified; a successful decode
    stores exactly the decoded items (whatever their JSON types); a missing
    match or a decode failure silently yields `[]`; and for every obtained
    completion the stage records the parsed entities without touching `error`
    and without letting anything escape. -/
theorem c4_extraction_parsing :
    extractParse ("```json\n[\"TP53\", \"Hypertension\"]\n```") =
      [JsonV.jvstr "TP53", JsonV.jvstr "Hypertension"] ∧
    extractParse ("I cannot find entities") = [] ∧
    (∀ r, bracketMatch (extractCleaned r).data = none → extractParse r = []) ∧
    (∀ r js, bracketMatch (extractCleaned r).data = some js →
      jsonLoadsArr js = none → extractParse r = []) ∧
    (∀ r js l, bracketMatch (extractCleaned r).data = some js →
      jsonLoadsArr js = some l → extractParse r = l) ∧
    (∀ a h o st resp,
      (st.question_type == some ("general_db") ||
        st.question_type == some ("general_knowledge")) = false →
      o.llm (build_extraction_prompt a h st) 100 = Except.ok resp →
      extract_entities a h o st =
        ⟨Except.ok { st with entities := some (extractParse (pyStrip resp)) },
          [(build_extraction_prompt a h st, 100)], []⟩) := by
  refine ⟨by rfl, by rfl, ?_, ?_, ?_, ?_⟩
  · intro r hb
    simp [extractParse, hb]
  · intro r js hb hj
    simp [extractParse, hb, hj]
  · intro r js l hb hl
    simp [extractParse, hb, hl]
  · intro a h o st resp hskip hllm
    unfold extract_entities
    rw [hskip]
    unfold get_llm_response
    rw [hllm]
    simp

/-- Witness for C4's conditional conjuncts at concrete inputs, including the
    decode successes the annotation does not constrain: a non-string array
    and a `\u` escape. -/
theorem c4_extraction_parsing_witness :
    extractParse ("no list here") = [] ∧
    extractParse ("nested [\"a\", [\"b\"]] broken") = [] ∧
    extractParse ("[1, 2]") = [JsonV.jvnum "1", JsonV.jvnum "2"] ∧
    extractParse ("[\"\\u0041\"]") = [JsonV.jvstr "A"] ∧
    extract_entities agent0 [] (oracleConst ("[\"TP53\"]")) stGD =
      ⟨Except.ok { stGD with entities := some (extractParse (pyStrip ("[\"TP53\"]"))) },
        [(build_extraction_prompt agent0 [] stGD, 100)], []⟩ :=
  ⟨c4_extraction_parsing.2.2.1 ("no list here") (by decide),
   c4_extraction_parsing.2.2.2.1 ("nested [\"a\", [\"b\"]] broken")
     (("[\"a\", [\"b\"]").data) (by decide) (by rfl),
   c4_extraction_parsing.2.2.2.2.1 ("[1, 2]") (("[1, 2]").data)
     [JsonV.jvnum "1", JsonV.jvnum "2"] (by decide) (by rfl),
   c4_extraction_parsing.2.2.2.2.1 ("[\"\\u0041\"]") (("[\"\\u0041\"]").data)
     [JsonV.jvstr "A"] (by decide) (by rfl),
   c4_extraction_parsing.2.2.2.2.2 agent0 [] (oracleConst ("[\"TP53\"]")) stGD ("[\"TP53\"]")
     (by decide) rfl⟩

/-- C5: in the generate stage, `general_db` sets the fixed introspection
    query verbatim with no model call, and `general_knowledge` sets a null
    query with no model call, irrespective of entities or anything else in
    the state. -/
theorem c5_generate_fixed_queries :
    (∀ a h o st, st.question_type = some ("general_db") →
      generate_query a h o st =
        ⟨Except.ok { st with cypher_query := some SCHEMA_QUERY }, [], []⟩) ∧
    (∀ a h o st, st.question_type = some ("general_knowledge") →
      generate_query a h o st =
        ⟨Except.ok { st with cypher_query := none }, [], []⟩) := by
  constructor
  · intro a h o st hq
    unfold generate_query
    rw [hq]
    rfl
  · intro a h o st hq
    unfold generate_query
    rw [hq]
    rfl

/-- Witness for C5 at concrete states (entities deliberately non-empty in
    the `general_db` case). -/
theorem c5_generate_fixed_queries_witness :
    generate_query agent0 [] oracleFail
        { initState ("show the db") with
          question_type := some ("general_db")
          entities := some [JsonV.jvstr "TP53"] } =
      ⟨Except.ok { initState ("show the db") with
                   question_type := some ("general_db")
                   entities := some [JsonV.jvstr "TP53"]
                   cypher_query := some SCHEMA_QUERY }, [], []⟩ ∧
    generate_query agent0 [] oracleFail
        { initState ("what is DNA?") with question_type := some ("general_knowledge") } =
      ⟨Except.ok { initState ("what is DNA?") with
                   question_type := some ("general_knowledge")
                   cypher_query := none }, [], []⟩ :=
  ⟨c5_generate_fixed_queries.1 agent0 [] oracleFail _ rfl,
   c5_generate_fixed_queries.2 agent0 [] oracleFail _ rfl⟩

/-- C6 counterexample: a state whose query is non-null but empty.  The Python
    truthiness test `execute_query(query) if query else []` skips the graph
    call, so the exact-string delegation the claim asserts for every non-null
    query does not happen. -/
theorem c6_counterexample :
    ({ initState ("q") with cypher_query := some ("") } : WorkflowState).cypher_query =
      some ("") ∧
    execute_query agent0 [] oracleFail { initState ("q") with cypher_query := some ("") } =
      ⟨Except.ok { initState ("q") with
                   cypher_query := some ("")
                   results := some [] }, [], []⟩ := by
  constructor
  · rfl
  · rfl

/-- C6 amended: a null **or empty** query yields `results = []` with no graph
    call; every non-null, non-empty query is delegated verbatim to the graph
    collaborator, whose rows (or wrapped failure) land in the state. -/
theorem c6_execute_delegation :
    (∀ a h o st, st.cypher_query = none →
      execute_query a h o st = ⟨Except.ok { st with results := some [] }, [], []⟩) ∧
    (∀ a h o st q, st.cypher_query = some q → strEmpty q = true →
      execute_query a h o st = ⟨Except.ok { st with results := some [] }, [], []⟩) ∧
    (∀ a h o st q rows, st.cypher_query = some q → strEmpty q = false →
      o.graphExec q = Except.ok rows →
      execute_query a h o st = ⟨Except.ok { st with results := some rows }, [], [q]⟩) ∧
    (∀ a h o st q m, st.cypher_query = some q → strEmpty q = false →
      o.graphExec q = Except.error m →
      execute_query a h o st =
        ⟨Except.ok { st with
                     error := some ("Query failed: " ++ m)
                     results := some [] }, [], [q]⟩) := by
  refine ⟨?_, ?_, ?_, ?_⟩
  · intro a h o st hq
    unfold execute_query
    rw [hq]
  · intro a h o st q hq he
    unfold execute_query
    rw [hq]
    simp [he]
  · intro a h o st q rows hq he hg
    unfold execute_query
    rw [hq]
    simp [he, hg]
  · intro a h o st q m hq he hg
    unfold execute_query
    rw [hq]
    simp [he, hg]

/-- Witness for C6 amended, covering all four branches concretely. -/
theorem c6_execute_delegation_witness :
    execute_query agent0 [] (oracleConst ("x")) (initState ("q")) =
      ⟨Except.ok { initState ("q") with results := some [] }, [], []⟩ ∧
    execute_query agent0 [] (oracleConst ("x"))
        { initState ("q") with cypher_query := some ("") } =
      ⟨Except.ok { initState ("q") with
                   cypher_query := some ("")
                   results := some [] }, [], []⟩ ∧
    execute_query agent0 [] (oracleConst ("x"))
        { initState ("q") with cypher_query := some (SCHEMA_QUERY) } =
      ⟨Except.ok { initState ("q") with
                   cypher_query := some (SCHEMA_QUERY)
                   results := some [] }, [], [SCHEMA_QUERY]⟩ ∧
    execute_query agent0 [] oracleFail
        { initState ("q") with cypher_query := some (SCHEMA_QUERY) } =
      ⟨Except.ok { initState ("q") with
                   cypher_query := some (SCHEMA_QUERY)
                   error := some ("Query failed: gboom")
                   results := some [] }, [], [SCHEMA_QUERY]⟩ :=
  ⟨c6_execute_delegation.1 agent0 [] (oracleConst ("x")) _ rfl,
   c6_execute_delegation.2.1 agent0 [] (oracleConst ("x")) _ ("") rfl (by decide),
   c6_execute_delegation.2.2.1 agent0 [] (oracleConst ("x")) _ SCHEMA_QUERY [] rfl
     (by decide) rfl,
   c6_execute_delegation.2.2.2 agent0 [] oracleFail _ SCHEMA_QUERY ("gboom") rfl
     (by decide) rfl⟩

/-! ### C7: schema-cache probing -/

def probe7 : String → String → Except String (List PVal) :=
  fun _ p => if p == "p1" then Except.error ("x") else Except.ok [PVal.pstr "v"]

def schema7 : SchemaInfo := ⟨["L"], ["R"], [("L", ["p1", "p2"])], [("R", ["p3"])]⟩

/-- C7 counterexample: one failing node-property probe (`p1`) leaves the map
    missing `p2` and `p3` as well, although their probes would succeed — the
    outer `try/except: pass` aborts all remaining probing, not just the one
    property. -/
theorem c7_counterexample :
    isOkB (probe7 ("L") ("p2")) = true ∧
    isOkB (probe7 ("REL_R") ("p3")) = true ∧
    get_key_property_values probe7 schema7 = [] ∧
    spec_key_property_values probe7 schema7 =
      [("p2", [PVal.pstr "v"]), ("p3", [PVal.pstr "v"])] := by
  refine ⟨rfl, rfl, rfl, rfl⟩

theorem probeNodeProps_eq_spec (probe : String → String → Except String (List PVal))
    (label : String) :
    ∀ prs acc, (∀ pr ∈ prs, isOkB (probe label pr) = true) →
      probeNodeProps probe label prs acc = (specNodeProps probe label prs acc, false)
  | [], acc, _ => rfl
  | pr :: rest, acc, hok => by
    have hhead : isOkB (probe label pr) = true := hok pr (List.mem_cons_self pr rest)
    have htail : ∀ p ∈ rest, isOkB (probe label p) = true :=
      fun p hp => hok p (List.mem_cons_of_mem pr hp)
    cases hck : containsKey acc pr with
    | true =>
      simp only [probeNodeProps, specNodeProps, hck, if_true]
      exact probeNodeProps_eq_spec probe label rest acc htail
    | false =>
      cases hpr : probe label pr with
      | error e => rw [hpr] at hhead; exact absurd hhead (by simp [isOkB])
      | ok vs =>
        simp only [probeNodeProps, specNodeProps, hck, hpr, if_false, Bool.false_eq_true]
        exact probeNodeProps_eq_spec probe label rest _ htail

theorem probeNodes_eq_spec (probe : String → String → Except String (List PVal))
    (s : SchemaInfo) :
    ∀ ls acc, (∀ l ∈ ls, ∀ pr ∈ lookupListD s.node_properties l, isOkB (probe l pr) = true) →
      probeNodes probe s ls acc = (specNodes probe s ls acc, false)
  | [], acc, _ => rfl
  | l :: ls, acc, hok => by
    have hhead := hok l (List.mem_cons_self l ls)
    have htail : ∀ l2 ∈ ls, ∀ pr ∈ lookupListD s.node_properties l2, isOkB (probe l2 pr) = true :=
      fun l2 hl2 => hok l2 (List.mem_cons_of_mem l hl2)
    simp only [probeNodes, specNodes,
      probeNodeProps_eq_spec probe l (lookupListD s.node_properties l) acc hhead]
    exact probeNodes_eq_spec probe s ls _ htail

/-- C7 amended: the per-property swallowing the claim describes holds for
    relationship probes, and holds overall exactly when no node-property
    probe fails; under that hypothesis the built map equals the
    probe-each-property-and-skip-failures construction.  (A node-probe
    failure instead aborts all remaining probing, per the counterexample,
    though construction still returns the partial map rather than raising.) -/
theorem c7_probe_swallowing (probe : String → String → Except String (List PVal))
    (s : SchemaInfo)
    (hok : ∀ l ∈ s.node_labels, ∀ pr ∈ lookupListD s.node_properties l,
      isOkB (probe l pr) = true) :
    get_key_property_values probe s = spec_key_property_values probe s := by
  unfold get_key_property_values spec_key_property_values
  rw [probeNodes_eq_spec probe s s.node_labels [] hok]

/-- Witness for C7 amended: with every node probe succeeding, the code's map
    equals the per-probe construction — here a relationship probe (`p3`)
    fails and only that property is absent. -/
def probe7b : String → String → Except String (List PVal) :=
  fun _ p => if p == "p3" then Except.error ("x") else Except.ok [PVal.pstr "v"]

theorem c7_probe_swallowing_witness :
    get_key_property_values probe7b schema7 = spec_key_property_values probe7b schema7 ∧
    get_key_property_values probe7b schema7 = [("p1", [PVal.pstr "v"]), ("p2", [PVal.pstr "v"])] :=
  ⟨c7_probe_swallowing probe7b schema7 (by decide), by rfl⟩

/-! ### Stage inversion lemmas -/

theorem classify_inv {a : AgentConfig} {h : History} {o : Oracles} {st s' : WorkflowState}
    (hs : (classify_question a h o st).out = Except.ok s') :
    s'.user_question = st.user_question ∧ s'.entities = st.entities ∧
    s'.cypher_query = st.cypher_query ∧ s'.results = st.results ∧
    s'.final_answer = st.final_answer ∧ (∃ t, s'.question_type = some t) ∧
    (s'.error = st.error ∨ ∃ m, s'.error = some ("Classification failed: " ++ m)) := by
  unfold classify_question get_llm_response at hs
  cases hllm : o.llm (build_classification_prompt a h st.user_question) 50 with
  | ok t =>
    rw [hllm] at hs
    simp only [Except.ok.injEq] at hs
    subst hs
    exact ⟨rfl, rfl, rfl, rfl, rfl, ⟨_, rfl⟩, Or.inl rfl⟩
  | error e =>
    rw [hllm] at hs
    simp only [Except.ok.injEq] at hs
    subst hs
    exact ⟨rfl, rfl, rfl, rfl, rfl, ⟨_, rfl⟩, Or.inr ⟨"LLM response failed: " ++ e, rfl⟩⟩

theorem extract_inv {a : AgentConfig} {h : History} {o : Oracles} {st s' : WorkflowState}
    (hs : (extract_entities a h o st).out = Except.ok s') :
    s'.user_question = st.user_question ∧ s'.question_type = st.question_type ∧
    s'.cypher_query = st.cypher_query ∧ s'.results = st.results ∧
    s'.final_answer = st.final_answer ∧ s'.error = st.error ∧
    (∃ l, s'.entities = some l) := by
  unfold extract_entities get_llm_response at hs
  cases hskip : (st.question_type == some ("general_db") ||
      st.question_type == some ("general_knowledge")) with
  | true =>
    rw [hskip] at hs
    simp only [if_true, Except.ok.injEq] at hs
    subst hs
    exact ⟨rfl, rfl, rfl, rfl, rfl, rfl, ⟨_, rfl⟩⟩
  | false =>
    rw [hskip] at hs
    cases hllm : o.llm (build_extraction_prompt a h st) 100 with
    | ok t =>
      rw [hllm] at hs
      simp only [Bool.false_eq_true, if_false, Except.ok.injEq] at hs
      subst hs
      exact ⟨rfl, rfl, rfl, rfl, rfl, rfl, ⟨_, rfl⟩⟩
    | error e =>
      rw [hllm] at hs
      simp at hs

theorem generate_inv {a : AgentConfig} {h : History} {o : Oracles} {st s' : WorkflowState}
    (hs : (generate_query a h o st).out = Except.ok s') :
    s'.user_question = st.user_question ∧ s'.question_type = st.question_type ∧
    s'.entities = st.entities ∧ s'.results = st.results ∧
    s'.final_answer = st.final_answer ∧ s'.error = st.error := by
  unfold generate_query get_llm_response at hs
  cases hdb : (st.question_type == some ("general_db")) with
  | true =>
    rw [hdb] at hs
    simp only [if_true, Except.ok.injEq] at hs
    subst hs
    exact ⟨rfl, rfl, rfl, rfl, rfl, rfl⟩
  | false =>
    rw [hdb] at hs
    cases hgk : (st.question_type == some ("general_knowledge")) with
    | true =>
      rw [hgk] at hs
      simp only [Bool.false_eq_true, if_false, if_true, Except.ok.injEq] at hs
      subst hs
      exact ⟨rfl, rfl, rfl, rfl, rfl, rfl⟩
    | false =>
      rw [hgk] at hs
      cases hllm : o.llm (build_generation_prompt a st) 150 with
      | ok t =>
        rw [hllm] at hs
        simp only [Bool.false_eq_true, if_false, Except.ok.injEq] at hs
        subst hs
        exact ⟨rfl, rfl, rfl, rfl, rfl, rfl⟩
      | error e =>
        rw [hllm] at hs
        simp at hs

theorem execute_inv {a : AgentConfig} {h : History} {o : Oracles} {st s' : WorkflowState}
    (hs : (execute_query a h o st).out = Except.ok s') :
    s'.user_question = st.user_question ∧ s'.question_type = st.question_type ∧
    s'.entities = st.entities ∧ s'.cypher_query = st.cypher_query ∧
    s'.final_answer = st.final_answer ∧ (∃ rs, s'.results = some rs) ∧
    (s'.error = st.error ∨ ∃ m, s'.error = some ("Query failed: " ++ m)) := by
  unfold execute_query at hs
  split at hs
  · split at hs
    · simp only [Except.ok.injEq] at hs
      subst hs
      exact ⟨rfl, rfl, rfl, rfl, rfl, ⟨_, rfl⟩, Or.inl rfl⟩
    · split at hs
      · simp only [Except.ok.injEq] at hs
        subst hs
        exact ⟨rfl, rfl, rfl, rfl, rfl, ⟨_, rfl⟩, Or.inl rfl⟩
      · simp only [Except.ok.injEq] at hs
        subst hs
        exact ⟨rfl, rfl, rfl, rfl, rfl, ⟨_, rfl⟩, Or.inr ⟨_, rfl⟩⟩
  · simp only [Except.ok.injEq] at hs
    subst hs
    exact ⟨rfl, rfl, rfl, rfl, rfl, ⟨_, rfl⟩, Or.inl rfl⟩

theorem formatNoError_inv {o : Oracles} {st s' : WorkflowState}
    (hs : (formatNoError o st).out = Except.ok s') :
    s'.user_question = st.user_question ∧ s'.question_type = st.question_type ∧
    s'.entities = st.entities ∧ s'.cypher_query = st.cypher_query ∧
    s'.results = st.results ∧ s'.error = st.error ∧
    (∃ ans, s'.final_answer = some ans) := by
  unfold formatNoError get_llm_response at hs
  cases hgk : (st.question_type == some ("general_knowledge")) with
  | true =>
    rw [hgk] at hs
    cases hllm : o.llm (knowledgePrompt st.user_question) 300 with
    | ok t =>
      rw [hllm] at hs
      simp only [if_true, Except.ok.injEq] at hs
      subst hs
      exact ⟨rfl, rfl, rfl, rfl, rfl, rfl, ⟨_, rfl⟩⟩
    | error e =>
      rw [hllm] at hs
      simp at hs
  | false =>
    rw [hgk] at hs
    cases hemp : (st.results.getD []).isEmpty with
    | true =>
      rw [hemp] at hs
      simp only [Bool.false_eq_true, if_false, if_true, Except.ok.injEq] at hs
      subst hs
      exact ⟨rfl, rfl, rfl, rfl, rfl, rfl, ⟨_, rfl⟩⟩
    | false =>
      rw [hemp] at hs
      cases hllm : o.llm (resultsPrompt st.user_question (st.results.getD [])) 250 with
      | ok t =>
        rw [hllm] at hs
        simp only [Bool.false_eq_true, if_false, Except.ok.injEq] at hs
        subst hs
        exact ⟨rfl, rfl, rfl, rfl, rfl, rfl, ⟨_, rfl⟩⟩
      | error e =>
        rw [hllm] at hs
        simp at hs

theorem format_inv {a : AgentConfig} {h : History} {o : Oracles} {st s' : WorkflowState}
    (hs : (format_answer a h o st).out = Except.ok s') :
    s'.user_question = st.user_question ∧ s'.question_type = st.question_type ∧
    s'.entities = st.entities ∧ s'.cypher_query = st.cypher_query ∧
    s'.results = st.results ∧ s'.error = st.error ∧
    (∃ ans, s'.final_answer = some ans) := by
  unfold format_answer at hs
  split at hs
  · split at hs
    · exact formatNoError_inv hs
    · simp only [Except.ok.injEq] at hs
      subst hs
      exact ⟨rfl, rfl, rfl, rfl, rfl, rfl, ⟨_, rfl⟩⟩
  · exact formatNoError_inv hs

theorem strEmpty_prefixed (p m : String) (hp : strEmpty p = false) :
    strEmpty (p ++ m) = false := by
  have hd : p.data ≠ [] := by simpa [strEmpty, List.isEmpty_iff] using hp
  simp [strEmpty, String.data_append, List.isEmpty_iff, List.append_eq_nil, hd]

theorem execute_err_eq {a : AgentConfig} {h : History} {o : Oracles} {st : WorkflowState}
    {q m : String} (hq : st.cypher_query = some q) (hne : strEmpty q = false)
    (hg : o.graphExec q = Except.error m) :
    execute_query a h o st =
      ⟨Except.ok { st with
                   error := some ("Query failed: " ++ m)
                   results := some [] }, [], [q]⟩ := by
  unfold execute_query
  rw [hq]
  simp [hne, hg]

/-- C1: for every pipeline state reaching the format stage with a non-null
    `error` (every such state carries a non-empty stage-prefixed message), the
    stage sets `final_answer` to the fixed apology embedding the error text,
    changes nothing else, and makes no model call; in particular a graph
    failure during execute stamps `error` with the wrapped message that the
    apology then embeds, whatever the category, entities or results. -/
theorem c1_error_apology (a : AgentConfig) (h : History) (o : Oracles) (q : String)
    (s1 s2 s3 s4 : WorkflowState)
    (h1 : (classify_question a h o (initState q)).out = Except.ok s1)
    (h2 : (extract_entities a h o s1).out = Except.ok s2)
    (h3 : (generate_query a h o s2).out = Except.ok s3)
    (h4 : (execute_query a h o s3).out = Except.ok s4) :
    (∀ e, s4.error = some e →
      format_answer a h o s4 =
        ⟨Except.ok { s4 with final_answer := some (apologyMessage e) }, [], []⟩) ∧
    (∀ qr m, s3.cypher_query = some qr → strEmpty qr = false →
      o.graphExec qr = Except.error m → s4.error = some ("Query failed: " ++ m)) := by
  have herr4 := (execute_inv h4).2.2.2.2.2.2
  have herr3 : s3.error = s2.error := (generate_inv h3).2.2.2.2.2
  have herr2 : s2.error = s1.error := (extract_inv h2).2.2.2.2.2.1
  have herr1 := (classify_inv h1).2.2.2.2.2.2
  constructor
  · intro e he
    have hne : strEmpty e = false := by
      rcases herr4 with h4e | ⟨m, h4e⟩
      · rw [he, herr3, herr2] at h4e
        rcases herr1 with h1e | ⟨m1, h1e⟩
        · rw [h1e] at h4e
          exact absurd h4e.symm (by simp [initState])
        · rw [h1e] at h4e
          have : e = "Classification failed: " ++ m1 := by
            simpa using h4e
          rw [this]
          exact strEmpty_prefixed _ _ (by decide)
      · rw [he] at h4e
        have : e = "Query failed: " ++ m := by simpa using h4e
        rw [this]
        exact strEmpty_prefixed _ _ (by decide)
    unfold format_answer
    rw [he]
    simp [hne]
  · intro qr m hq hne hg
    rw [execute_err_eq hq hne hg] at h4
    simp only [Except.ok.injEq] at h4
    rw [← h4]

def o1 : Oracles := oracleGraphFail ("general_db") ("gboom")

def c1s1 : WorkflowState :=
  { initState ("show the db schema") with question_type := some ("general_db") }

def c1s2 : WorkflowState := { c1s1 with entities := some [] }

def c1s3 : WorkflowState := { c1s2 with cypher_query := some SCHEMA_QUERY }

def c1s4 : WorkflowState :=
  { c1s3 with
    error := some ("Query failed: gboom")
    results := some [] }

/-- Witness for C1: a concrete run whose graph collaborator raises. -/
theorem c1_error_apology_witness :
    format_answer agent0 [] o1 c1s4 =
      ⟨Except.ok { c1s4 with
                   final_answer := some (apologyMessage ("Query failed: gboom")) }, [], []⟩ ∧
    c1s4.error = some ("Query failed: gboom") :=
  ⟨(c1_error_apology agent0 [] o1 ("show the db schema") c1s1 c1s2 c1s3 c1s4
      (by rfl) (by rfl) (by rfl) (by rfl)).1 ("Query failed: gboom") rfl,
   (c1_error_apology agent0 [] o1 ("show the db schema") c1s1 c1s2 c1s3 c1s4
      (by rfl) (by rfl) (by rfl) (by rfl)).2 SCHEMA_QUERY ("gboom") rfl
     (by decide) rfl⟩

theorem stepBind_out_ok {r : StepRes} {f : WorkflowState → StepRes} {s : WorkflowState}
    (h : r.out = Except.ok s) : (stepBind r f).out = (f s).out := by
  simp [stepBind, h]

theorem stepBind_out_err {r : StepRes} {f : WorkflowState → StepRes} {e : String}
    (h : r.out = Except.error e) : (stepBind r f).out = Except.error e := by
  simp [stepBind, h]

/-- C2 counterexample: an LLM gateway failure during **extract** also
    propagates (the stage's `except` clause catches only `JSONDecodeError`
    and `AttributeError`, not the `RuntimeError` raised by
    `_get_llm_response`), contradicting the claim that classify, extract and
    execute all recover locally. -/
theorem c2_counterexample :
    (extract_entities agent0 [] oracleFail stGD).out =
      Except.error ("LLM response failed: boom") := by rfl

/-- C2 amended: an LLM gateway failure during generate, or during either
    model-calling branch of format, is not caught — no `error` field or
    default output is recorded and the wrapped exception propagates out of
    `answer_question`; classify and execute always recover locally; extract
    recovers locally only from unparsable completions (a completion that is
    obtained never sets `error` and never escapes), while an LLM gateway
    failure during extract propagates just like generate/format. -/
theorem c2_recovery_matrix :
    (∀ a h o st e,
      (st.question_type == some ("general_db") ||
        st.question_type == some ("general_knowledge")) = false →
      o.llm (build_generation_prompt a st) 150 = Except.error e →
      (generate_query a h o st).out = Except.error ("LLM response failed: " ++ e)) ∧
    (∀ a h o st e, pyTruthyStr st.error = false →
      st.question_type = some ("general_knowledge") →
      o.llm (knowledgePrompt st.user_question) 300 = Except.error e →
      (format_answer a h o st).out = Except.error ("LLM response failed: " ++ e)) ∧
    (∀ a h o st e, pyTruthyStr st.error = false →
      (st.question_type == some ("general_knowledge")) = false →
      (st.results.getD []).isEmpty = false →
      o.llm (resultsPrompt st.user_question (st.results.getD [])) 250 = Except.error e →
      (format_answer a h o st).out = Except.error ("LLM response failed: " ++ e)) ∧
    (∀ a h o st, ∃ s, (classify_question a h o st).out = Except.ok s) ∧
    (∀ a h o st, ∃ s, (execute_query a h o st).out = Except.ok s) ∧
    (∀ a h o st resp,
      o.llm (build_extraction_prompt a h st) 100 = Except.ok resp →
      ∃ s, (extract_entities a h o st).out = Except.ok s ∧ s.error = st.error) ∧
    (∀ a h o st e,
      (st.question_type == some ("general_db") ||
        st.question_type == some ("general_knowledge")) = false →
      o.llm (build_extraction_prompt a h st) 100 = Except.error e →
      (extract_entities a h o st).out = Except.error ("LLM response failed: " ++ e)) ∧
    (∀ a h o q s1 s2 e,
      (classify_question a h o (initState q)).out = Except.ok s1 →
      (extract_entities a h o s1).out = Except.ok s2 →
      (generate_query a h o s2).out = Except.error e →
      answer_question a h o q = Except.error e) := by
  refine ⟨?_, ?_, ?_, ?_, ?_, ?_, ?_, ?_⟩
  · intro a h o st e hbr hllm
    obtain ⟨hdb, hgk⟩ := Bool.or_eq_false_iff.mp hbr
    unfold generate_query get_llm_response
    simp [hdb, hgk, hllm]
  · intro a h o st e herr hgk hllm
    unfold format_answer
    cases he : st.error with
    | none =>
      unfold formatNoError get_llm_response
      rw [hgk, hllm]
      simp
    | some e2 =>
      rw [he] at herr
      have : strEmpty e2 = true := by simpa [pyTruthyStr] using herr
      simp only [this, if_true]
      unfold formatNoError get_llm_response
      rw [hgk, hllm]
      simp
  · intro a h o st e herr hgk hres hllm
    unfold format_answer
    cases he : st.error with
    | none =>
      unfold formatNoError get_llm_response
      rw [hgk, hres, hllm]
      simp
    | some e2 =>
      rw [he] at herr
      have : strEmpty e2 = true := by simpa [pyTruthyStr] using herr
      simp only [this, if_true]
      unfold formatNoError get_llm_response
      rw [hgk, hres, hllm]
      simp
  · intro a h o st
    unfold classify_question get_llm_response
    cases hllm : o.llm (build_classification_prompt a h st.user_question) 50 with
    | ok t => exact ⟨_, rfl⟩
    | error e => exact ⟨_, rfl⟩
  · intro a h o st
    unfold execute_query
    cases hq : st.cypher_query with
    | none => exact ⟨_, rfl⟩
    | some q =>
      cases hemp : strEmpty q with
      | true => simp only [hemp, if_true]; exact ⟨_, rfl⟩
      | false =>
        cases hg : o.graphExec q with
        | ok rows => simp only [hemp, hg]; exact ⟨_, rfl⟩
        | error m => simp only [hemp, hg]; exact ⟨_, rfl⟩
  · intro a h o st resp hllm
    unfold extract_entities get_llm_response
    cases hbr : (st.question_type == some ("general_db") ||
        st.question_type == some ("general_knowledge")) with
    | true => exact ⟨_, rfl, rfl⟩
    | false =>
      rw [hllm]
      exact ⟨_, rfl, rfl⟩
  · intro a h o st e hbr hllm
    unfold extract_entities get_llm_response
    rw [hbr, hllm]
    simp
  · intro a h o q s1 s2 e h1 h2 h3
    unfold answer_question
    have hout : (runPipeline a h o q).out = Except.error e := by
      unfold runPipeline
      rw [stepBind_out_ok h1, stepBind_out_ok h2, stepBind_out_err h3]
    rw [hout]

def oracleGenFail : Oracles :=
  ⟨fun _ t => if t == 150 then Except.error ("boom") else Except.ok ("gene_disease"),
   fun _ => Except.ok []⟩

def c2s1 : WorkflowState :=
  { initState ("genes for Hypertension") with question_type := some ("gene_disease") }

def c2s2 : WorkflowState := { c2s1 with entities := some [] }

/-- Witness for C2 amended, exercising every conjunct at concrete inputs:
    a generate-stage and both format-stage failures propagate wrapped, the
    always-recovering stages, the parse-recovery of extract, the extract
    gateway propagation, and a whole `answer_question` call aborted by a
    generate-stage failure. -/
theorem c2_recovery_matrix_witness :
    (generate_query agent0 [] oracleFail stGD).out =
      Except.error ("LLM response failed: boom") ∧
    (format_answer agent0 [] oracleFail
        { initState ("what is DNA?") with question_type := some ("general_knowledge") }).out =
      Except.error ("LLM response failed: boom") ∧
    (format_answer agent0 [] oracleFail
        { stGD with results := some [[("n", JVal.jstr "x")]] }).out =
      Except.error ("LLM response failed: boom") ∧
    (∃ s, (classify_question agent0 [] oracleFail (initState ("q"))).out = Except.ok s) ∧
    (∃ s, (execute_query agent0 [] oracleFail (initState ("q"))).out = Except.ok s) ∧
    (∃ s, (extract_entities agent0 [] (oracleConst ("no entities")) stGD).out = Except.ok s ∧
      s.error = stGD.error) ∧
    (extract_entities agent0 [] oracleFail stGD).out =
      Except.error ("LLM response failed: boom") ∧
    answer_question agent0 [] oracleGenFail ("genes for Hypertension") =
      Except.error ("LLM response failed: boom") :=
  ⟨c2_recovery_matrix.1 agent0 [] oracleFail stGD ("boom") (by decide) rfl,
   c2_recovery_matrix.2.1 agent0 [] oracleFail _ ("boom") rfl rfl rfl,
   c2_recovery_matrix.2.2.1 agent0 [] oracleFail _ ("boom") rfl (by decide) (by decide) rfl,
   c2_recovery_matrix.2.2.2.1 agent0 [] oracleFail _,
   c2_recovery_matrix.2.2.2.2.1 agent0 [] oracleFail _,
   c2_recovery_matrix.2.2.2.2.2.1 agent0 [] (oracleConst ("no entities")) stGD
     ("no entities") rfl,
   c2_recovery_matrix.2.2.2.2.2.2.1 agent0 [] oracleFail stGD ("boom") (by decide) rfl,
   c2_recovery_matrix.2.2.2.2.2.2.2 agent0 [] oracleGenFail ("genes for Hypertension")
     c2s1 c2s2 ("LLM response failed: boom") (by rfl) (by rfl) (by rfl)⟩

/-- C8: along any successful run of the five stages, every state field that
    an earlier stage set non-null (the question itself is never even
    rewritten) stays non-null through every later stage; in particular
    `error`, once set, is never cleared. -/
theorem c8_monotonic_fields (a : AgentConfig) (h : History) (o : Oracles) (q : String)
    (s1 s2 s3 s4 s5 : WorkflowState)
    (h1 : (classify_question a h o (initState q)).out = Except.ok s1)
    (h2 : (extract_entities a h o s1).out = Except.ok s2)
    (h3 : (generate_query a h o s2).out = Except.ok s3)
    (h4 : (execute_query a h o s3).out = Except.ok s4)
    (h5 : (format_answer a h o s4).out = Except.ok s5) :
    monotoneStep (initState q) s1 ∧ monotoneStep s1 s2 ∧ monotoneStep s2 s3 ∧
    monotoneStep s3 s4 ∧ monotoneStep s4 s5 := by
  obtain ⟨u1, e1, c1, r1, f1, ⟨t1, qt1⟩, err1⟩ := classify_inv h1
  obtain ⟨u2, qt2, c2, r2, f2, err2, ⟨l2, e2⟩⟩ := extract_inv h2
  obtain ⟨u3, qt3, e3, r3, f3, err3⟩ := generate_inv h3
  obtain ⟨u4, qt4, e4, c4, f4, ⟨rs4, r4⟩, err4⟩ := execute_inv h4
  obtain ⟨u5, qt5, e5, c5, r5, err5, ⟨a5, f5⟩⟩ := format_inv h5
  refine ⟨⟨u1.symm, ?_, ?_, ?_, ?_, ?_, ?_⟩, ⟨u2.symm, ?_, ?_, ?_, ?_, ?_, ?_⟩,
    ⟨u3.symm, ?_, ?_, ?_, ?_, ?_, ?_⟩, ⟨u4.symm, ?_, ?_, ?_, ?_, ?_, ?_⟩,
    ⟨u5.symm, ?_, ?_, ?_, ?_, ?_, ?_⟩⟩
  · intro _; simp [qt1]
  · intro hx; rw [e1]; exact hx
  · intro hx; rw [c1]; exact hx
  · intro hx; rw [r1]; exact hx
  · intro hx; rw [f1]; exact hx
  · intro hx
    rcases err1 with he | ⟨m, he⟩
    · rw [he]; exact hx
    · simp [he]
  · intro hx; rw [qt2]; exact hx
  · intro _; simp [e2]
  · intro hx; rw [c2]; exact hx
  · intro hx; rw [r2]; exact hx
  · intro hx; rw [f2]; exact hx
  · intro hx; rw [err2]; exact hx
  · intro hx; rw [qt3]; exact hx
  · intro hx; rw [e3]; exact hx
  · intro hx
    rw [c2, c1] at hx
    simp [initState] at hx
  · intro hx; rw [r3]; exact hx
  · intro hx; rw [f3]; exact hx
  · intro hx; rw [err3]; exact hx
  · intro hx; rw [qt4]; exact hx
  · intro hx; rw [e4]; exact hx
  · intro hx; rw [c4]; exact hx
  · intro _; simp [r4]
  · intro hx; rw [f4]; exact hx
  · intro hx
    rcases err4 with he | ⟨m, he⟩
    · rw [he]; exact hx
    · simp [he]
  · intro hx; rw [qt5]; exact hx
  · intro hx; rw [e5]; exact hx
  · intro hx; rw [c5]; exact hx
  · intro hx; rw [r5]; exact hx
  · intro _; simp [f5]
  · intro hx; rw [err5]; exact hx

def w8err : String := "Classification failed: LLM response failed: boom"

def w8s1 : WorkflowState :=
  { initState ("q8") with
    error := some w8err
    question_type := some ("general_knowledge") }

def w8s2 : WorkflowState := { w8s1 with entities := some [] }

def w8s3 : WorkflowState := { w8s2 with cypher_query := none }

def w8s4 : WorkflowState := { w8s3 with results := some [] }

def w8s5 : WorkflowState := { w8s4 with final_answer := some (apologyMessage w8err) }

/-- Witness for C8: a concrete degraded run (classification fails, pipeline
    continues to the apology) in which all five steps are monotone. -/
theorem c8_monotonic_fields_witness :
    monotoneStep (initState ("q8")) w8s1 ∧ monotoneStep w8s1 w8s2 ∧
    monotoneStep w8s2 w8s3 ∧ monotoneStep w8s3 w8s4 ∧ monotoneStep w8s4 w8s5 :=
  c8_monotonic_fields agent0 [] oracleFail ("q8") w8s1 w8s2 w8s3 w8s4 w8s5
    (by rfl) (by rfl) (by rfl) (by rfl) (by rfl)

theorem answer_ok_append {a : AgentConfig} {h : History} {o : Oracles} {q : String}
    {r : AnswerResult} {h2 : History} (hmem : a.conversation_memory = true)
    (hok : answer_question a h o q = Except.ok (r, h2)) :
    h2 = h ++ [(q, r.answer)] := by
  unfold answer_question at hok
  cases hrp : (runPipeline a h o q).out with
  | error e => rw [hrp] at hok; simp at hok
  | ok s =>
    rw [hrp] at hok
    simp only [hmem, if_true, Except.ok.injEq, Prod.mk.injEq] at hok
    obtain ⟨hr, hh⟩ := hok
    rw [← hh, ← hr]

/-- C9: with conversation memory enabled, a session of N completed calls to
    the entry point leaves the memory holding exactly the initial history
    followed by N turns, the i-th turn pairing the i-th question with exactly
    that call's returned answer, in call order (apology-terminated runs
    included, since the append always uses the returned answer). -/
theorem c9_memory_turns (a : AgentConfig) (o : Oracles)
    (hmem : a.conversation_memory = true) :
    ∀ (qs : List String) (h : History) (rs : List AnswerResult) (h2 : History),
      runSession a o h qs = Except.ok (rs, h2) →
      h2 = h ++ qs.zip (rs.map (fun r => r.answer)) ∧ rs.length = qs.length := by
  intro qs
  induction qs with
  | nil =>
    intro h rs h2 hr
    unfold runSession at hr
    simp only [Except.ok.injEq, Prod.mk.injEq] at hr
    obtain ⟨hrs, hh⟩ := hr
    subst hrs
    subst hh
    simp
  | cons q qs ih =>
    intro h rs h2 hr
    unfold runSession at hr
    split at hr
    next e haq => simp at hr
    next r hmid haq =>
      split at hr
      next e hrest => simp at hr
      next rs2 hN hrest =>
        simp only [Except.ok.injEq, Prod.mk.injEq] at hr
        obtain ⟨hrs, hh2⟩ := hr
        subst hrs
        subst hh2
        obtain ⟨ihh, ihl⟩ := ih hmid rs2 hN hrest
        have hmid_eq := answer_ok_append hmem haq
        constructor
        · rw [ihh, hmid_eq]
          simp
        · simp [ihl]

def apologyCF : String := apologyMessage (w8err)

def r9 : AnswerResult :=
  ⟨apologyCF, some ("general_knowledge"), [], none, 0, [], some (w8err)⟩

/-- Witness for C9: two sequential calls on a memory-enabled agent whose LLM
    collaborator always fails; both turns end in the apology and both are
    recorded with the returned answers, in order. -/
theorem c9_memory_turns_witness :
    ([("q1", apologyCF), ("q2", apologyCF)] : History) =
      [] ++ (["q1", "q2"].zip (([r9, r9].map (fun r => r.answer)))) ∧
    ([r9, r9] : List AnswerResult).length = (["q1", "q2"] : List String).length :=
  c9_memory_turns agentMem oracleFail rfl ["q1", "q2"] [] [r9, r9]
    [("q1", apologyCF), ("q2", apologyCF)] (by rfl)

theorem listStartsWith_append_left {pat : List Char} :
    ∀ {s : List Char} (t : List Char), listStartsWith s pat = true →
      listStartsWith (s ++ t) pat = true := by
  induction pat with
  | nil =>
    intro s t _
    cases s with
    | nil => cases t <;> rfl
    | cons c cs => rfl
  | cons d ds ih =>
    intro s t hs
    cases s with
    | nil => exact absurd hs (by simp [listStartsWith])
    | cons c cs =>
      simp only [listStartsWith, Bool.and_eq_true] at hs ⊢
      exact ⟨hs.1, ih t hs.2⟩

theorem build_generation_prompt_header (a : AgentConfig) (st : WorkflowState) :
    listStartsWith ((build_generation_prompt a st).data)
      (("Create a Cypher query").data) = true := by
  unfold build_generation_prompt
  simp only [String.data_append, List.append_assoc]
  exact listStartsWith_append_left _ (by decide)

theorem query_generation_template_header
    (ch q qt ents nls rts propInfo relGuide : String) :
    listStartsWith ((QUERY_GENERATION_PROMPT ch q qt ents nls rts propInfo relGuide).data)
      (("You are an expert").data) = true := by
  unfold QUERY_GENERATION_PROMPT
  simp only [String.data_append, List.append_assoc]
  exact listStartsWith_append_left _ (by decide)

/-- C10 counterexample: on an agent with the elaborated (chain-of-thought)
    mode enabled, the generate stage builds exactly the same prompt as the
    compact-mode agent — the flag is consulted by classify and extract only —
    and that prompt is not the rendered elaborated template. -/
theorem c10_counterexample :
    agentCot.chain_of_thought = true ∧
    build_generation_prompt agentCot stGD = build_generation_prompt agent0 stGD ∧
    build_generation_prompt agentCot stGD ≠
      QUERY_GENERATION_PROMPT ("") (stGD.user_question) ("gene_disease")
        (optEntitiesPy stGD.entities) (joinSep (", ") schema0.node_labels)
        (joinSep (", ") schema0.relationship_types) (generatePropertyInfo agentCot)
        (relationshipGuide schema0) := by
  refine ⟨rfl, rfl, ?_⟩
  decide

/-- C10 amended: the rendering mode selected per agent instance is applied
    identically across classify and extract — with the elaborated mode on,
    both build their prompts from the elaborated step-by-step templates — but
    the generate stage ignores the flag: it always builds the compact inline
    prompt (opening "Create a Cypher query…"), never the elaborated
    `QUERY_GENERATION_PROMPT`, all of whose renderings open
    "You are an expert…". -/
theorem c10_rendering_modes (a : AgentConfig) (h : History) (st : WorkflowState) (q : String)
    (hcot : a.chain_of_thought = true) :
    build_classification_prompt a h q =
      CLASSIFICATION_PROMPT (conversationHistoryBlock a h) q ∧
    build_extraction_prompt a h st =
      ENTITY_EXTRACTION_PROMPT (conversationHistoryBlock a h) st.user_question
        (joinSep (", ") a.schema.node_labels)
        (joinSep ("\n") (propertyInfoLines a.property_values)) ∧
    build_generation_prompt a st =
      build_generation_prompt { a with chain_of_thought := false } st ∧
    (∀ ch q2 qt ents nls rts pi rg,
      listStartsWith ((QUERY_GENERATION_PROMPT ch q2 qt ents nls rts pi rg).data)
        (("You are an expert").data) = true) ∧
    listStartsWith ((build_generation_prompt a st).data)
      (("Create a Cypher query").data) = true := by
  refine ⟨?_, ?_, rfl, query_generation_template_header, build_generation_prompt_header a st⟩
  · unfold build_classification_prompt
    rw [hcot]
    simp
  · unfold build_extraction_prompt
    rw [hcot]
    simp

/-- Witness for C10 amended at a concrete chain-of-thought agent. -/
theorem c10_rendering_modes_witness :
    build_classification_prompt agentCot [] ("q10") =
      CLASSIFICATION_PROMPT (conversationHistoryBlock agentCot []) ("q10") ∧
    build_generation_prompt agentCot stGD =
      build_generation_prompt { agentCot with chain_of_thought := false } stGD :=
  ⟨(c10_rendering_modes agentCot [] stGD ("q10") rfl).1,
   (c10_rendering_modes agentCot [] stGD ("q10") rfl).2.2.1⟩
